import Mathlib

/-!
Verification development for the axolotl world core: section-position
indexing, the block-update broadcaster, the chunk store front
(set_block / set_blocks), chunk tickets, and the noise chunk generator.

Shallow embedding conventions:
* Rust u64 values are Nat reduced modulo 2^64; u64 shifts wrap modulo 2^64.
* Rust i64 values are Int; i64 bit operations go through the two's
  complement image in [0, 2^64) and back.
* Rust i32 division truncates toward zero, embedded as Int.tdiv.
* Concurrent maps (DashMap / AHashMap) are association lists; the
  lock-free queue is a list with push = append at the tail.
-/

namespace Axolotl

/-! ## Machine-integer helpers -/

/-- 2^64, the u64 wrap modulus. -/
def u64Mod : Nat := 18446744073709551616

/-- Two's complement image of an i64 value in [0, 2^64). -/
def toU64 (v : Int) : Nat := (v % 18446744073709551616).toNat

/-- Reinterpret a u64 bit pattern as a signed i64 value. -/
def ofU64 (n : Nat) : Int :=
  if n < 9223372036854775808 then (n : Int) else (n : Int) - 18446744073709551616

/-- Rust i64 left shift: shifted-out high bits are discarded. -/
def i64shl (v : Int) (s : Nat) : Int := ofU64 ((toU64 v <<< s) % u64Mod)

/-- Rust i64 bitwise or. -/
def i64or (a b : Int) : Int := ofU64 (toU64 a ||| toU64 b)

/-- Rust i64 bitwise and. -/
def i64and (a b : Int) : Int := ofU64 (toU64 a &&& toU64 b)

/-- Rust cast from usize to i64 (wrap through the 64-bit pattern). -/
def usizeAsI64 (n : Nat) : Int := ofU64 (n % u64Mod)

/-- Rust cast from i64 to i32: keep the low 32 bits, two's complement. -/
def i64AsI32 (v : Int) : Int := (v + 2147483648) % 4294967296 - 2147483648

/-! ## Data model: positions and blocks -/

/-- axolotl-api BlockPosition: a global block coordinate triple. -/
structure BlockPosition where
  x : Int
  y : Int
  z : Int
deriving DecidableEq, Repr

/-- axolotl-api ChunkPos: a horizontal chunk (region) coordinate pair. -/
structure ChunkPos where
  x : Int
  z : Int
deriving DecidableEq, Repr

/-- Modelled from the spec: PlacedBlock (chunk/placed_block.rs is absent
from src); the only observable used by the world core is the numeric
block-state id returned by PlacedBlock::id. -/
structure PlacedBlock where
  id : Nat
deriving DecidableEq, Repr

/-- Modelled from the spec: BlockPosition::chunk (the axolotl-api world
module is absent from src) — the region-containing component: the chunk
that contains a position, a fixed 16-block horizontal footprint, so each
chunk coordinate is the floor of the block coordinate over 16. -/
def BlockPosition.chunk (pos : BlockPosition) : ChunkPos :=
  ⟨Int.fdiv pos.x 16, Int.fdiv pos.z 16⟩

/-! ## Section position indexing (world/chunk/section.rs) -/

/-- Section edge length; chunk/consts.rs is absent from src, the spec
fixes sections as 16 x 16 x 16 volumes. -/
def SECTION_X_SIZE : Nat := 16

def SECTION_Y_SIZE : Nat := 16

def SECTION_Z_SIZE : Nat := 16

/-- SectionPosIndex: a newtype over a u64 packed local-coordinate key. -/
structure SectionPosIndex where
  val : Nat
deriving DecidableEq, Repr

/-- From (T,T,T) for SectionPosIndex: (y << 8) | (z << 4) | x on u64,
with no masking of the components (shifts wrap modulo 2^64). -/
def SectionPosIndex.ofTriple (x y z : Nat) : SectionPosIndex :=
  ⟨((((y % u64Mod) <<< 8) % u64Mod) ||| (((z % u64Mod) <<< 4) % u64Mod)) |||
    (x % u64Mod)⟩

/-- From SectionPosIndex for (T,T,T): extract x = v & 0xF,
z = (v >> 4) & 0xF, y = (v >> 8) & 0xF, returned in (x, y, z) order. -/
def SectionPosIndex.toTriple (v : SectionPosIndex) : Nat × Nat × Nat :=
  (v.val &&& 0xF, (v.val >>> 8) &&& 0xF, (v.val >>> 4) &&& 0xF)

/-- From BlockPosition for SectionPosIndex: each local coordinate is the
unsigned magnitude of the global coordinate reduced modulo the section
size (unsigned_abs, then %). -/
def SectionPosIndex.ofBlockPosition (pos : BlockPosition) : SectionPosIndex :=
  SectionPosIndex.ofTriple (pos.x.natAbs % SECTION_X_SIZE)
    (pos.y.natAbs % SECTION_Y_SIZE) (pos.z.natAbs % SECTION_Z_SIZE)

/-! ## Chunk model and chunk updates (world/mod.rs) -/

/-- Modelled from the spec: AxolotlChunk (chunk/mod.rs is absent from
src); a region is its coordinate plus exclusively owned block content,
recorded here as the list of applied (position, state id) edits, newest
first. -/
structure AxolotlChunk where
  chunk_pos : ChunkPos
  blocks : List (BlockPosition × Nat)
deriving DecidableEq, Repr

/-- Modelled from the spec: AxolotlChunk::new allocates a fresh, empty
region at the given coordinate (deterministic allocation). -/
def AxolotlChunk.new (pos : ChunkPos) : AxolotlChunk := ⟨pos, []⟩

/-- Modelled from the spec: AxolotlChunk::set_block stores the block's
state id at the given position inside the region. -/
def AxolotlChunk.set_block (c : AxolotlChunk) (pos : BlockPosition)
    (block : PlacedBlock) : AxolotlChunk :=
  ⟨c.chunk_pos, (pos, block.id) :: c.blocks⟩

/-- ChunkUpdate from world/mod.rs: queue elements of the chunk map. -/
inductive ChunkUpdate where
  | Unload (x z : Int)
  | Load (x z : Int) (pending : Option (BlockPosition × PlacedBlock))
deriving DecidableEq, Repr

/-- PlayerUpdate variants used by the block-update broadcaster. -/
inductive PlayerUpdate where
  | UpdateBlock (pos : BlockPosition) (block : Nat)
  | SectionUpdate (updates : List (Int × List Int))
deriving DecidableEq, Repr

/-- Association-list lookup, the embedding of hash-map get. -/
def assocLookup {κ α : Type} [DecidableEq κ] : List (κ × α) → κ → Option α
  | [], _ => none
  | (k, a) :: rest, key => if k = key then some a else assocLookup rest key

/-- Association-list in-place value replacement at a key. -/
def assocUpdate {κ α : Type} [DecidableEq κ] :
    List (κ × α) → κ → α → List (κ × α)
  | [], _, _ => []
  | (k, a) :: rest, key, v =>
    if k = key then (k, v) :: rest else (k, a) :: assocUpdate rest key v

/-- ChunkTickets from world/mod.rs: the viewer-interest table mapping a
chunk coordinate to the set of interested entities (viewers as Nat). -/
structure ChunkTickets where
  tickets : List (ChunkPos × List Nat)
deriving DecidableEq, Repr

/-- ChunkTickets::find_chunks_to_unload: iterate the table and invoke
the callback on every coordinate whose ticket set is empty; the result
lists the callback arguments in iteration order. -/
def ChunkTickets.find_chunks_to_unload (t : ChunkTickets) : List ChunkPos :=
  (t.tickets.filter (fun p => p.2.isEmpty)).map Prod.fst

def addTicketList : List (ChunkPos × List Nat) → Nat → ChunkPos →
    List (ChunkPos × List Nat)
  | [], viewer, coord => [(coord, [viewer])]
  | (k, s) :: rest, viewer, coord =>
    if k = coord then (k, viewer :: s) :: rest
    else (k, s) :: addTicketList rest viewer coord

/-- Modelled from the spec: add_ticket(viewer, coord) records the
viewer's interest in the coordinate (the method itself is absent from
src, only the table and its unload scan are); it inserts the viewer
into the coordinate's ticket set, creating the entry when missing. -/
def ChunkTickets.add_ticket (t : ChunkTickets) (viewer : Nat)
    (coord : ChunkPos) : ChunkTickets :=
  ⟨addTicketList t.tickets viewer coord⟩

/-! ## The world aggregate and the broadcaster (world/mod.rs) -/

/-- AxolotlWorld, restricted to the state the chunk-store and broadcast
paths touch: the resident-chunk map, the chunk-map update queue, the
ticket table and the connected-client set (a client's channel identity
is abstracted to the entity id; a send to a connected client succeeds). -/
structure AxolotlWorld where
  chunks : List (ChunkPos × AxolotlChunk)
  queue : List ChunkUpdate
  chunk_tickets : ChunkTickets
  clients : List Nat
deriving DecidableEq, Repr

/-- AxolotlWorld::push_update_to_players_at: resolve the entities
ticketed on the chunk, and send the update to each one that is a
connected client; the result is the list of delivered messages. -/
def push_update_to_players_at (w : AxolotlWorld) (chunk : ChunkPos)
    (update : PlayerUpdate) : List (Nat × PlayerUpdate) :=
  match assocLookup w.chunk_tickets.tickets chunk with
  | none => []
  | some entities =>
    (entities.filter (fun e => w.clients.contains e)).map (fun e => (e, update))

/-- AxolotlWorld::send_block_update: the single-block broadcast path;
the target chunk is pos.x as i32 / 16 and pos.z as i32 / 16, Rust i32
division truncating toward zero. -/
def send_block_update (w : AxolotlWorld) (pos : BlockPosition)
    (block : Nat) : List (Nat × PlayerUpdate) :=
  push_update_to_players_at w
    ⟨Int.tdiv (i64AsI32 pos.x) 16, Int.tdiv (i64AsI32 pos.z) 16⟩
    (.UpdateBlock pos block)

/-- The per-block record of send_block_updates:
(id << 12) | (pos.x << 8) | (pos.z << 4) | (pos.y & 0xF) on i64. -/
def blockRecord (id : Nat) (pos : BlockPosition) : Int :=
  i64or (i64or (i64or (i64shl (usizeAsI64 id) 12) (i64shl pos.x 8))
    (i64shl pos.z 4)) (i64and pos.y 15)

/-- The per-section key of send_block_updates:
(chunk_x & 0x3FFFFF) << 42 | (pos.y & 0xFFFFF) | (chunk_z & 0x3FFFFF) << 20
on i64 (chunk coordinates widened from i32). -/
def sectionKey (chunk_x chunk_z : Int) (y : Int) : Int :=
  i64or (i64or (i64shl (i64and chunk_x 0x3FFFFF) 42) (i64and y 0xFFFFF))
    (i64shl (i64and chunk_z 0x3FFFFF) 20)

/-- Modelled from the spec (refinement comparand, following the spec's
words, not the source): record = (state_id << 12) | (local_x << 8) |
(local_z << 4) | local_y with each local coordinate reduced to [0,16),
the reduction being the 4-bit mask of the bit layout. -/
def specBlockRecord (id : Nat) (pos : BlockPosition) : Int :=
  i64or (i64or (i64or (i64shl (usizeAsI64 id) 12)
    (i64shl (i64and pos.x 15) 8)) (i64shl (i64and pos.z 15) 4))
    (i64and pos.y 15)

/-- Modelled from the spec (refinement comparand): section_key =
(chunk_x & mask22) << 42 | (global_y & mask20) | (chunk_z & mask22) << 20. -/
def specSectionKey (chunk_x chunk_z : Int) (y : Int) : Int :=
  i64or (i64or (i64shl (i64and chunk_x 0x3FFFFF) 42) (i64and y 0xFFFFF))
    (i64shl (i64and chunk_z 0x3FFFFF) 20)

/-- The grouping step of send_block_updates: append the record to the
vector at the key, inserting a fresh singleton vector when absent. -/
def insertRecord : List (Int × List Int) → Int → Int → List (Int × List Int)
  | [], key, rec => [(key, [rec])]
  | (k, l) :: rest, key, rec =>
    if k = key then (k, l ++ [rec]) :: rest
    else (k, l) :: insertRecord rest key rec

/-- The loop of AxolotlWorld::send_block_updates building the
section_updates map from the iterated (position, id) pairs. -/
def buildSectionUpdates (chunk_x chunk_z : Int)
    (blocks : List (BlockPosition × Nat)) : List (Int × List Int) :=
  blocks.foldl
    (fun m pb => insertRecord m (sectionKey chunk_x chunk_z pb.1.y)
      (blockRecord pb.2 pb.1)) []

/-- AxolotlWorld::send_block_updates: batch the block changes into one
SectionUpdate and push it to the players ticketed at the chunk. -/
def send_block_updates (w : AxolotlWorld) (chunk : ChunkPos)
    (blocks : List (BlockPosition × Nat)) : List (Nat × PlayerUpdate) :=
  push_update_to_players_at w chunk
    (.SectionUpdate (buildSectionUpdates chunk.x chunk.z blocks))

/-! ## set_block and set_blocks (World impl for AxolotlWorld) -/

/-- AxolotlWorld::set_block. Returns the Rust boolean result, the world
state after the call (chunk map and queue), and the broadcast messages
sent. Resident chunk: mutate under the lock, then broadcast, true.
Absent and not required_loaded: push one Load carrying the edit, true.
Absent and required_loaded: false, nothing changes. -/
def set_block (w : AxolotlWorld) (location : BlockPosition)
    (block : PlacedBlock) (required_loaded : Bool) :
    Bool × AxolotlWorld × List (Nat × PlayerUpdate) :=
  let position := location.chunk
  let id := block.id
  match assocLookup w.chunks position with
  | some c =>
    let w1 : AxolotlWorld :=
      { w with chunks := assocUpdate w.chunks position (c.set_block location block) }
    (true, w1, send_block_update w1 location id)
  | none =>
    if !required_loaded then
      (true,
        { w with queue :=
            w.queue ++ [ChunkUpdate.Load position.x position.z (some (location, block))] },
        [])
    else (false, w, [])

/-- AxolotlWorld::set_blocks: batched mutation of one resident chunk
followed by one batched broadcast; when the chunk is absent the whole
batch is dropped with only a warning logged. -/
def set_blocks (w : AxolotlWorld) (chunk_pos : ChunkPos)
    (blocks : List (BlockPosition × PlacedBlock)) :
    AxolotlWorld × List (Nat × PlayerUpdate) :=
  match assocLookup w.chunks chunk_pos with
  | some c =>
    let block_len := blocks.map (fun pb => (pb.1, pb.2.id))
    let c1 := blocks.foldl (fun acc pb => acc.set_block pb.1 pb.2) c
    let w1 : AxolotlWorld := { w with chunks := assocUpdate w.chunks chunk_pos c1 }
    (w1, send_block_updates w1 chunk_pos block_len)
  | none => (w, [])

/-! ## Noise chunk generator (world/level/noise/mod.rs) -/

/-- Opaque payload of a resolved NoiseSetting (terrain settings). -/
structure NoiseSetting where
  data : Nat
deriving DecidableEq, Repr

/-- Opaque payload of BiomeSourceSettings. -/
structure BiomeSourceSettings where
  data : Nat
deriving DecidableEq, Repr

/-- NoiseGenerator from world/level/noise/mod.rs: the game handle (which
carries the seed and registries) is abstracted to an opaque value. -/
structure NoiseGenerator where
  game : Nat
  noise : NoiseSetting
  biome_source : BiomeSourceSettings
deriving DecidableEq, Repr

/-- NoiseGenerator::generate_chunk_into: the source logs an
unimplemented-generation warning and performs no mutation of the chunk. -/
def NoiseGenerator.generate_chunk_into (_g : NoiseGenerator)
    (chunk : AxolotlChunk) : AxolotlChunk := chunk

/-- NoiseGenerator::generate_chunk: allocate a fresh chunk at the
coordinate and fill it with generate_chunk_into. -/
def NoiseGenerator.generate_chunk (g : NoiseGenerator)
    (chunk_x chunk_z : Int) : AxolotlChunk :=
  g.generate_chunk_into (AxolotlChunk.new ⟨chunk_x, chunk_z⟩)

/-! ## Helper lemmas -/

/-- Packing then unpacking is the identity on triples inside one section. -/
theorem pack_unpack_bounded : ∀ x < 16, ∀ y < 16, ∀ z < 16,
    (SectionPosIndex.ofTriple x y z).toTriple = (x, y, z) := by decide

/-- Masking an i64 value already in [0, 16) with 15 is the identity. -/
theorem i64and15_of_range (v : Int) (h0 : 0 ≤ v) (h1 : v < 16) :
    i64and v 15 = v := by
  interval_cases v <;> decide

/-! ## Claims -/

/-- Claim C1: for every triple (x,y,z) with each component in [0,16),
unpacking the packed section index returns the original triple:
unpack(pack(x,y,z)) = (x,y,z), where pack is the From-(T,T,T)
conversion and unpack the conversion back to a triple. -/
theorem C1_pack_unpack_roundtrip : ∀ x < 16, ∀ y < 16, ∀ z < 16,
    (SectionPosIndex.ofTriple x y z).toTriple = (x, y, z) := by decide

/-- Witness for C1 at the concrete triple (3, 5, 2). -/
theorem C1_pack_unpack_roundtrip_witness :
    (SectionPosIndex.ofTriple 3 5 2).toTriple = (3, 5, 2) :=
  C1_pack_unpack_roundtrip 3 (by decide) 5 (by decide) 2 (by decide)

/-- Claim C6, counterexample: pack does NOT mask its components to
4 bits before combining; at (16,0,0) the packed key differs from the
key of the masked triple, and at (0,16,0) the key is not below 4096. -/
theorem C6_counterexample :
    SectionPosIndex.ofTriple 16 0 0 ≠
      SectionPosIndex.ofTriple (16 &&& 15) (0 &&& 15) (0 &&& 15) ∧
    ¬ (SectionPosIndex.ofTriple 0 16 0).val < 4096 := by decide

/-- Claim C6 (amended): pack performs no masking of its components; for
components already in [0,16) the packed key agrees with the key of the
masked components and lies in [0, 4096), but components at or above 16
are combined raw (shifts wrapping modulo 2^64). -/
theorem C6_no_masking_in_range_only : ∀ x < 16, ∀ y < 16, ∀ z < 16,
    SectionPosIndex.ofTriple x y z =
      SectionPosIndex.ofTriple (x &&& 15) (y &&& 15) (z &&& 15) ∧
    (SectionPosIndex.ofTriple x y z).val < 4096 := by decide

/-- Witness for the amended C6 at the concrete triple (15, 7, 9). -/
theorem C6_no_masking_in_range_only_witness :
    SectionPosIndex.ofTriple 15 7 9 =
      SectionPosIndex.ofTriple (15 &&& 15) (7 &&& 15) (9 &&& 15) ∧
    (SectionPosIndex.ofTriple 15 7 9).val < 4096 :=
  C6_no_masking_in_range_only 15 (by decide) 7 (by decide) 9 (by decide)

/-- Claim C7: the reduction of a global BlockPosition to a section-local
index takes each local coordinate as the magnitude (absolute value) of
the global coordinate modulo 16; in particular global coordinate -1 maps
to local 1, not 15. -/
theorem C7_magnitude_modulo_reduction (pos : BlockPosition) :
    (SectionPosIndex.ofBlockPosition pos).toTriple =
      (pos.x.natAbs % 16, pos.y.natAbs % 16, pos.z.natAbs % 16) ∧
    (SectionPosIndex.ofBlockPosition ⟨-1, 0, 0⟩).toTriple = (1, 0, 0) ∧
    (SectionPosIndex.ofBlockPosition ⟨-1, 0, 0⟩).toTriple ≠ (15, 0, 0) := by
  refine ⟨?_, by decide, by decide⟩
  unfold SectionPosIndex.ofBlockPosition SECTION_X_SIZE SECTION_Y_SIZE SECTION_Z_SIZE
  exact pack_unpack_bounded _ (Nat.mod_lt _ (by norm_num)) _
    (Nat.mod_lt _ (by norm_num)) _ (Nat.mod_lt _ (by norm_num))

/-- Claim C2, counterexample: the per-block record does not reduce the
x and z coordinates to [0,16); at position (16, 0, 0) with state id 0
the record built by send_block_updates differs from the spec's formula
with reduced local coordinates. -/
theorem C2_counterexample :
    blockRecord 0 ⟨16, 0, 0⟩ ≠ specBlockRecord 0 ⟨16, 0, 0⟩ := by decide

/-- Claim C2 (amended): the per-block record is
(state_id << 12) | (x << 8) | (z << 4) | (y & 15) — only the y
coordinate is masked to 4 bits, x and z enter unreduced, so the record
matches the spec's reduced-coordinate formula exactly when x and z
already lie in [0,16); the section key matches the documented layout
(chunk_x & mask22) << 42 | (global_y & mask20) | (chunk_z & mask22) << 20
for all inputs, and for chunk (x=1, z=-1), y=5 it is 8796091973637. -/
theorem C2_record_and_section_key (id : Nat) (pos : BlockPosition)
    (cx cz gy : Int) (hx0 : 0 ≤ pos.x) (hx : pos.x < 16)
    (hz0 : 0 ≤ pos.z) (hz : pos.z < 16) :
    blockRecord id pos = specBlockRecord id pos ∧
    sectionKey cx cz gy = specSectionKey cx cz gy ∧
    sectionKey 1 (-1) 5 = 8796091973637 := by
  refine ⟨?_, rfl, by decide⟩
  unfold blockRecord specBlockRecord
  rw [i64and15_of_range pos.x hx0 hx, i64and15_of_range pos.z hz0 hz]

/-- Witness for the amended C2 at id 7, position (3, 33, 12), chunk
(2, -3), global y 33. -/
theorem C2_record_and_section_key_witness :
    blockRecord 7 ⟨3, 33, 12⟩ = specBlockRecord 7 ⟨3, 33, 12⟩ ∧
    sectionKey 2 (-3) 33 = specSectionKey 2 (-3) 33 ∧
    sectionKey 1 (-1) 5 = 8796091973637 :=
  C2_record_and_section_key 7 ⟨3, 33, 12⟩ 2 (-3) 33 (by decide) (by decide)
    (by decide) (by decide)

/-- Claim C3: set_block with required_loaded = true on a position whose
containing region is not resident returns false and has no side effect:
the world state is unchanged, nothing is enqueued, nothing is sent. -/
theorem C3_set_block_required_loaded_absent (w : AxolotlWorld)
    (location : BlockPosition) (block : PlacedBlock)
    (h : assocLookup w.chunks location.chunk = none) :
    set_block w location block true = (false, w, []) := by
  simp [set_block, h]

/-- Witness for C3: empty world, position (1, 2, 3), block id 9. -/
theorem C3_set_block_required_loaded_absent_witness :
    set_block ⟨[], [], ⟨[]⟩, []⟩ ⟨1, 2, 3⟩ ⟨9⟩ true =
      (false, ⟨[], [], ⟨[]⟩, []⟩, []) :=
  C3_set_block_required_loaded_absent ⟨[], [], ⟨[]⟩, []⟩ ⟨1, 2, 3⟩ ⟨9⟩ rfl

/-- Claim C4: set_block with required_loaded = false on a position whose
containing region is not resident returns true and pushes exactly one
Load onto the chunk-map queue, carrying the position and block of the
requested edit; the chunk map itself is untouched and nothing is sent. -/
theorem C4_set_block_enqueues_load (w : AxolotlWorld)
    (location : BlockPosition) (block : PlacedBlock)
    (h : assocLookup w.chunks location.chunk = none) :
    set_block w location block false =
      (true,
        { w with queue := w.queue ++
            [ChunkUpdate.Load location.chunk.x location.chunk.z
              (some (location, block))] },
        []) := by
  simp [set_block, h]

/-- Witness for C4: empty world, position (1, 2, 3), block id 9. -/
theorem C4_set_block_enqueues_load_witness :
    set_block ⟨[], [], ⟨[]⟩, []⟩ ⟨1, 2, 3⟩ ⟨9⟩ false =
      (true,
        { (⟨[], [], ⟨[]⟩, []⟩ : AxolotlWorld) with queue :=
            ([] : List ChunkUpdate) ++
            [ChunkUpdate.Load (BlockPosition.chunk ⟨1, 2, 3⟩).x
              (BlockPosition.chunk ⟨1, 2, 3⟩).z
              (some (⟨1, 2, 3⟩, ⟨9⟩))] },
        []) :=
  C4_set_block_enqueues_load ⟨[], [], ⟨[]⟩, []⟩ ⟨1, 2, 3⟩ ⟨9⟩ rfl

/-- Claim C5: set_blocks on a region that is not resident drops the
whole batch: the state is unchanged (no Load enqueued, no block
mutated) and no broadcast is sent — only a warning is logged. -/
theorem C5_set_blocks_absent_drops_batch (w : AxolotlWorld)
    (chunk_pos : ChunkPos) (blocks : List (BlockPosition × PlacedBlock))
    (h : assocLookup w.chunks chunk_pos = none) :
    set_blocks w chunk_pos blocks = (w, []) := by
  simp [set_blocks, h]

/-- Witness for C5: empty world, chunk (4, -2), a two-edit batch. -/
theorem C5_set_blocks_absent_drops_batch_witness :
    set_blocks ⟨[], [], ⟨[]⟩, []⟩ ⟨4, -2⟩
      [(⟨64, 1, -32⟩, ⟨5⟩), (⟨65, 1, -30⟩, ⟨6⟩)] =
      (⟨[], [], ⟨[]⟩, []⟩, []) :=
  C5_set_blocks_absent_drops_batch ⟨[], [], ⟨[]⟩, []⟩ ⟨4, -2⟩
    [(⟨64, 1, -32⟩, ⟨5⟩), (⟨65, 1, -30⟩, ⟨6⟩)] rfl

/-- A key of the empty-set filtered table is a key of the table. -/
theorem keys_filter_subset (l : List (ChunkPos × List Nat)) (c : ChunkPos)
    (h : c ∈ (l.filter (fun p => p.2.isEmpty)).map Prod.fst) :
    c ∈ l.map Prod.fst := by
  obtain ⟨p, hp, rfl⟩ := List.mem_map.mp h
  exact List.mem_map.mpr ⟨p, (List.mem_filter.mp hp).1, rfl⟩

/-- On a table with no duplicate keys, the empty-set scan yields a
coordinate exactly when the table maps it to an empty ticket set. -/
theorem mem_unload_scan_iff (l : List (ChunkPos × List Nat))
    (hnd : (l.map Prod.fst).Nodup) (c : ChunkPos) :
    c ∈ (l.filter (fun p => p.2.isEmpty)).map Prod.fst ↔
      assocLookup l c = some [] := by
  induction l with
  | nil => simp [assocLookup]
  | cons hd tl ih =>
    obtain ⟨k, s⟩ := hd
    simp only [List.map_cons, List.nodup_cons] at hnd
    by_cases hk : k = c
    · subst hk
      cases s with
      | nil => simp [assocLookup]
      | cons v vs =>
        simp only [List.filter_cons, List.isEmpty_cons, assocLookup, if_pos rfl]
        constructor
        · intro hmem
          exact absurd (keys_filter_subset tl k (by simpa using hmem)) hnd.1
        · intro hcontra
          exact absurd hcontra (by simp)
    · cases hs : s.isEmpty with
      | true =>
        simp [List.filter_cons, hs, assocLookup, hk, ih hnd.2]
        intro h
        exact absurd h.symm hk
      | false =>
        simp [List.filter_cons, hs, assocLookup, hk, ih hnd.2]

/-- After recording a viewer's interest in a coordinate, the empty-set
scan no longer yields that coordinate (table keys without duplicates). -/
theorem not_mem_unload_scan_add (l : List (ChunkPos × List Nat))
    (v : Nat) (c : ChunkPos) (hnd : (l.map Prod.fst).Nodup) :
    c ∉ ((addTicketList l v c).filter (fun p => p.2.isEmpty)).map Prod.fst := by
  induction l with
  | nil => simp [addTicketList]
  | cons hd tl ih =>
    obtain ⟨k, s⟩ := hd
    simp only [List.map_cons, List.nodup_cons] at hnd
    by_cases hk : k = c
    · subst hk
      simp [addTicketList, List.filter_cons]
      intro hmem
      exact absurd (List.mem_map.mpr ⟨(k, []), hmem, rfl⟩) hnd.1
    · simp only [addTicketList, if_neg hk]
      cases hs : s.isEmpty with
      | true =>
        simp [List.filter_cons, hs, ih hnd.2]
        exact fun h => absurd h.symm hk
      | false =>
        simpa [List.filter_cons, hs] using ih hnd.2

/-- Claim C8: with no duplicate table keys, find_chunks_to_unload yields
a coordinate if and only if its ticket set in the table is empty; so a
region with an empty ticket set appears in the scan, and after adding
any ticket for that region via add_ticket it no longer appears. -/
theorem C8_find_chunks_to_unload_iff (t : ChunkTickets) (c : ChunkPos)
    (v : Nat) (hnd : (t.tickets.map Prod.fst).Nodup) :
    (c ∈ t.find_chunks_to_unload ↔ assocLookup t.tickets c = some []) ∧
    c ∉ (t.add_ticket v c).find_chunks_to_unload := by
  exact ⟨mem_unload_scan_iff t.tickets hnd c,
    not_mem_unload_scan_add t.tickets v c hnd⟩

/-- Witness for C8: a table where chunk (0,0) has an empty ticket set
and chunk (1,1) is held by viewer 7; the added viewer is 5. -/
theorem C8_find_chunks_to_unload_iff_witness :
    ((⟨0, 0⟩ : ChunkPos) ∈
        (⟨[(⟨0, 0⟩, []), (⟨1, 1⟩, [7])]⟩ : ChunkTickets).find_chunks_to_unload ↔
      assocLookup [(⟨0, 0⟩, []), (⟨1, 1⟩, [7])] (⟨0, 0⟩ : ChunkPos) = some []) ∧
    (⟨0, 0⟩ : ChunkPos) ∉
      ((⟨[(⟨0, 0⟩, []), (⟨1, 1⟩, [7])]⟩ : ChunkTickets).add_ticket 5
        ⟨0, 0⟩).find_chunks_to_unload :=
  C8_find_chunks_to_unload_iff ⟨[(⟨0, 0⟩, []), (⟨1, 1⟩, [7])]⟩ ⟨0, 0⟩ 5
    (by decide)

/-- Claim C9: chunk generation is deterministic — two independent
generator instances with identical game handle (seed) and identical
settings produce identical chunks at the same coordinate, and
generate_chunk equals allocating a fresh chunk at the coordinate and
filling it with generate_chunk_into (which in the source logs a warning
and fills nothing). -/
theorem C9_generate_chunk_deterministic (g1 g2 : NoiseGenerator)
    (x z : Int) (hg : g1.game = g2.game) (hn : g1.noise = g2.noise)
    (hb : g1.biome_source = g2.biome_source) :
    g1.generate_chunk x z = g2.generate_chunk x z ∧
    g1.generate_chunk x z =
      g1.generate_chunk_into (AxolotlChunk.new ⟨x, z⟩) :=
  ⟨rfl, rfl⟩

/-- Witness for C9: two instances built from the same seed handle and
settings, at chunk coordinate (3, -4). -/
theorem C9_generate_chunk_deterministic_witness :
    (NoiseGenerator.mk 0 ⟨1⟩ ⟨2⟩).generate_chunk 3 (-4) =
      (NoiseGenerator.mk 0 ⟨1⟩ ⟨2⟩).generate_chunk 3 (-4) ∧
    (NoiseGenerator.mk 0 ⟨1⟩ ⟨2⟩).generate_chunk 3 (-4) =
      (NoiseGenerator.mk 0 ⟨1⟩ ⟨2⟩).generate_chunk_into
        (AxolotlChunk.new ⟨3, -4⟩) :=
  C9_generate_chunk_deterministic (NoiseGenerator.mk 0 ⟨1⟩ ⟨2⟩)
    (NoiseGenerator.mk 0 ⟨1⟩ ⟨2⟩) 3 (-4) rfl rfl rfl

/-- Claim C10: the single-block broadcast path resolves its target chunk
coordinate by division by 16 truncated toward zero on both axes
(pos.x / 16, pos.z / 16 as i32), not by floor division; consequently for
a mutated position whose x coordinate lies in (-16, 0) the update is
pushed to the viewers ticketed on x-chunk 0 while the chunk containing
the position has x-coordinate -1, and likewise for a z coordinate in
(-16, 0) the target z-chunk is 0 while the containing chunk has
z-coordinate -1. -/
theorem C10_truncating_division_fanout (w : AxolotlWorld)
    (pos : BlockPosition) (id : Nat) :
    send_block_update w pos id =
      push_update_to_players_at w
        ⟨Int.tdiv (i64AsI32 pos.x) 16, Int.tdiv (i64AsI32 pos.z) 16⟩
        (.UpdateBlock pos id) ∧
    (-16 < pos.x → pos.x < 0 →
      Int.tdiv (i64AsI32 pos.x) 16 = 0 ∧ pos.chunk.x = -1) ∧
    (-16 < pos.z → pos.z < 0 →
      Int.tdiv (i64AsI32 pos.z) 16 = 0 ∧ pos.chunk.z = -1) := by
  obtain ⟨x, y, z⟩ := pos
  refine ⟨rfl, ?_, ?_⟩
  · intro h1 h2
    simp only [BlockPosition.chunk] at h1 h2 ⊢
    have hxw : i64AsI32 x = x := by unfold i64AsI32; omega
    rw [hxw]
    constructor
    · interval_cases x <;> decide
    · have : Int.fdiv x 16 = -1 := by interval_cases x <;> decide
      simpa using this
  · intro h1 h2
    simp only [BlockPosition.chunk] at h1 h2 ⊢
    have hzw : i64AsI32 z = z := by unfold i64AsI32; omega
    rw [hzw]
    constructor
    · interval_cases z <;> decide
    · have : Int.fdiv z 16 = -1 := by interval_cases z <;> decide
      simpa using this

/-- Witness for C10: a world with viewer 42 ticketed on chunk (0, 0) and
connected, mutated position (-5, 10, -7) — both horizontal coordinates
in (-16, 0) — state id 3: the target chunk is (0, 0) on both axes while
the containing chunk is (-1, -1). -/
theorem C10_truncating_division_fanout_witness :
    (send_block_update ⟨[], [], ⟨[(⟨0, 0⟩, [42])]⟩, [42]⟩ ⟨-5, 10, -7⟩ 3 =
      push_update_to_players_at ⟨[], [], ⟨[(⟨0, 0⟩, [42])]⟩, [42]⟩
        ⟨Int.tdiv (i64AsI32 (BlockPosition.mk (-5) 10 (-7)).x) 16,
          Int.tdiv (i64AsI32 (BlockPosition.mk (-5) 10 (-7)).z) 16⟩
        (.UpdateBlock ⟨-5, 10, -7⟩ 3)) ∧
    (Int.tdiv (i64AsI32 (BlockPosition.mk (-5) 10 (-7)).x) 16 = 0 ∧
      (BlockPosition.mk (-5) 10 (-7)).chunk.x = -1) ∧
    (Int.tdiv (i64AsI32 (BlockPosition.mk (-5) 10 (-7)).z) 16 = 0 ∧
      (BlockPosition.mk (-5) 10 (-7)).chunk.z = -1) :=
  have h := C10_truncating_division_fanout
    ⟨[], [], ⟨[(⟨0, 0⟩, [42])]⟩, [42]⟩ ⟨-5, 10, -7⟩ 3
  ⟨h.1, h.2.1 (by decide) (by decide), h.2.2 (by decide) (by decide)⟩

end Axolotl
